import Mathlib

/-!
Shallow embedding of the MCP-Database-Management agent
(src/client.py, src/mysql_utils.py) and proofs about its behavior.

Python strings are modelled as Lean String / List Char; machine
integers do not occur (row counts are Nat); fallible Python code is
modelled with Option / Except / an explicit PyResult type.
-/

/-! ## Python string primitives used by the source -/

/-- Python str.strip removes these whitespace characters
(space, tab, newline, carriage return, vertical tab, form feed). -/
def pyIsSpace (c : Char) : Bool :=
  c == ' ' || c == '\t' || c == '\n' || c == '\r' ||
    c == Char.ofNat 11 || c == Char.ofNat 12

def pyStripChars (cs : List Char) : List Char :=
  ((cs.dropWhile pyIsSpace).reverse.dropWhile pyIsSpace).reverse

/-- Python str.strip(). -/
def pyStrip (s : String) : String := String.mk (pyStripChars s.data)

/-- Python str.upper() (ASCII letters; sufficient for the SELECT check). -/
def pyUpper (s : String) : String := String.mk (s.data.map Char.toUpper)

/-- Python str.lower(). -/
def pyLower (s : String) : String := String.mk (s.data.map Char.toLower)

/-- Python str.startswith on character lists. -/
def starts_with : List Char → List Char → Bool
  | _, [] => true
  | [], _ :: _ => false
  | c :: cs, d :: ds => c == d && starts_with cs ds

/-- The read/write classification of client.py line 74:
sql.strip().upper().startswith('SELECT'). -/
def sql_is_select (sql : String) : Bool :=
  starts_with ((pyStripChars sql.data).map Char.toUpper) ("SELECT".data)

/-! ## SqlExecutor: SimpleMCPAgent.execute_sql (client.py lines 69-80) -/

/-- A fetched row: an insertion-ordered mapping column name → rendered value. -/
abbrev Row := List (String × String)

/-- ExecutionResult: the tagged dict returned by execute_sql. -/
inductive ExecResult where
  | select (data : List Row)
  | modify (rows_affected : Nat)
  | error (message : String)

/-- Behavior of the database driver on one call: either the statement
executes (yielding fetched rows and a row count, and a later commit also
succeeds), or a mysql.connector.Error is raised at some point of the
connect/execute/commit sequence. -/
inductive DriverOutcome where
  | ok (rows : List Row) (rowcount : Nat)
  | err (message : String)

/-- SimpleMCPAgent.execute_sql.  The second component records whether
conn.commit() was performed.  The try/except around the whole body turns
every driver error into the error variant, so the function is total:
no driver exception escapes it. -/
def execute_sql (sql : String) (driver : DriverOutcome) : ExecResult × Bool :=
  match driver with
  | .err m => (.error m, false)
  | .ok rows rc =>
    if sql_is_select sql then (.select rows, false)
    else (.modify rc, true)

/-! ## JSON values, modelling the objects produced by json.loads -/

/-- Brace characters, written via code points. -/
def lbrace : Char := Char.ofNat 123

def rbrace : Char := Char.ofNat 125

/-- JSON value as decoded by json.loads.  Numbers are restricted to
integers: the source pipeline never relies on float payloads, and no
theorem below depends on inputs containing fractional numbers. -/
inductive Json where
  | null
  | bool (b : Bool)
  | num (n : Int)
  | str (s : String)
  | arr (xs : List Json)
  | obj (kvs : List (String × Json))

/-- dict.get on an object decoded by json.loads: with duplicate keys the
last occurrence wins, as in Python dict construction. -/
def lookupLast (kvs : List (String × Json)) (k : String) : Option Json :=
  match kvs with
  | [] => none
  | (k2, v) :: rest =>
    match lookupLast rest k with
    | some r => some r
    | none => if k2 == k then some v else none

/-- Python truthiness of a decoded JSON value. -/
def Json.truthy : Json → Bool
  | .null => false
  | .bool b => b
  | .num n => n != 0
  | .str s => !(s == "")
  | .arr xs => !xs.isEmpty
  | .obj kvs => !kvs.isEmpty

/-- Truthiness of dict.get with default None (missing key is falsy). -/
def truthyOpt (o : Option Json) : Bool := (o.getD .null).truthy

/-- Python single-quote character for repr rendering. -/
def squote : String := String.singleton (Char.ofNat 39)

def lbraceStr : String := String.singleton lbrace

def rbraceStr : String := String.singleton rbrace

mutual

/-- Python repr() of a decoded JSON value (string escaping elided; no
claim exercises repr of a string containing quotes). -/
def pyRepr : Json → String
  | .null => "None"
  | .bool true => "True"
  | .bool false => "False"
  | .num n => toString n
  | .str s => squote ++ s ++ squote
  | .arr xs => "[" ++ pyReprElems xs ++ "]"
  | .obj kvs => lbraceStr ++ pyReprMembers kvs ++ rbraceStr

def pyReprElems : List Json → String
  | [] => ""
  | [x] => pyRepr x
  | x :: y :: rest => pyRepr x ++ ", " ++ pyReprElems (y :: rest)

def pyReprMembers : List (String × Json) → String
  | [] => ""
  | [(k, v)] => squote ++ k ++ squote ++ ": " ++ pyRepr v
  | (k, v) :: m :: rest =>
    squote ++ k ++ squote ++ ": " ++ pyRepr v ++ ", " ++ pyReprMembers (m :: rest)

end

/-- Python str() of a decoded JSON value, as used by f-string interpolation. -/
def pyStr : Json → String
  | .str s => s
  | j => pyRepr j

/-! ## A model of json.loads (the fragment the agent exercises) -/

/-- Skip JSON whitespace, as json.loads does between tokens. -/
def skipWs : List Char → List Char
  | [] => []
  | c :: cs =>
    if c == ' ' || c == '\t' || c == '\n' || c == '\r' then skipWs cs
    else c :: cs

/-- Decode one backslash escape inside a JSON string
(the \uXXXX form is outside the modelled fragment). -/
def escChar (e : Char) : Option Char :=
  if e == '\"' then some '\"'
  else if e == '\\' then some '\\'
  else if e == '/' then some '/'
  else if e == 'n' then some '\n'
  else if e == 't' then some '\t'
  else if e == 'r' then some '\r'
  else if e == 'b' then some (Char.ofNat 8)
  else if e == 'f' then some (Char.ofNat 12)
  else none

/-- Parse the body of a JSON string after the opening quote; returns the
decoded characters and the input after the closing quote. -/
def parseStringBody : List Char → Option (List Char × List Char)
  | [] => none
  | c :: cs =>
    if c == '\"' then some ([], cs)
    else if c == '\\' then
      match cs with
      | [] => none
      | e :: cs2 =>
        match escChar e with
        | none => none
        | some ch =>
          match parseStringBody cs2 with
          | none => none
          | some (s, rest) => some (ch :: s, rest)
    else
      match parseStringBody cs with
      | none => none
      | some (s, rest) => some (c :: s, rest)

def natOfDigits (ds : List Char) : Nat :=
  ds.foldl (fun acc c => acc * 10 + (c.toNat - 48)) 0

/-- Parse a JSON integer literal (fractions and exponents are outside the
modelled fragment and are rejected). -/
def parseNumber (cs : List Char) : Option (Json × List Char) :=
  match cs with
  | [] => none
  | c :: rest =>
    let p := if c == '-' then (true, rest) else (false, c :: rest)
    let ds := p.2.takeWhile Char.isDigit
    let rest2 := p.2.dropWhile Char.isDigit
    if ds.isEmpty then none
    else
      match rest2 with
      | [] =>
        some (.num (if p.1 then -(Int.ofNat (natOfDigits ds)) else Int.ofNat (natOfDigits ds)), [])
      | d :: _ =>
        if d == '.' || d == 'e' || d == 'E' then none
        else
          some (.num (if p.1 then -(Int.ofNat (natOfDigits ds)) else Int.ofNat (natOfDigits ds)), rest2)

/-- Match an expected literal character sequence. -/
def expectChars (cs : List Char) : List Char → Option (List Char)
  | [] => some cs
  | d :: ds =>
    match cs with
    | [] => none
    | c :: rest => if c == d then expectChars rest ds else none

mutual

/-- Parse one JSON value (fuel-bounded recursion; jsonLoadsChars supplies
ample fuel). -/
def parseValue : Nat → List Char → Option (Json × List Char)
  | 0, _ => none
  | fuel + 1, cs =>
    match skipWs cs with
    | [] => none
    | c :: rest =>
      if c == '\"' then
        match parseStringBody rest with
        | some (s, r) => some (.str (String.mk s), r)
        | none => none
      else if c == lbrace then
        match skipWs rest with
        | [] => none
        | d :: r2 =>
          if d == rbrace then some (.obj [], r2)
          else parseMembers fuel (d :: r2) []
      else if c == '[' then
        match skipWs rest with
        | [] => none
        | d :: r2 =>
          if d == ']' then some (.arr [], r2)
          else parseElems fuel (d :: r2) []
      else if c == 't' then
        match expectChars rest ['r', 'u', 'e'] with
        | some r => some (.bool true, r)
        | none => none
      else if c == 'f' then
        match expectChars rest ['a', 'l', 's', 'e'] with
        | some r => some (.bool false, r)
        | none => none
      else if c == 'n' then
        match expectChars rest ['u', 'l', 'l'] with
        | some r => some (.null, r)
        | none => none
      else parseNumber (c :: rest)

/-- Parse the members of a JSON object after the opening brace
(first member not yet consumed). -/
def parseMembers : Nat → List Char → List (String × Json) → Option (Json × List Char)
  | 0, _, _ => none
  | fuel + 1, cs, acc =>
    match skipWs cs with
    | [] => none
    | c :: rest =>
      if c == '\"' then
        match parseStringBody rest with
        | none => none
        | some (k, r1) =>
          match skipWs r1 with
          | [] => none
          | d :: r2 =>
            if d == ':' then
              match parseValue fuel r2 with
              | none => none
              | some (v, r3) =>
                match skipWs r3 with
                | [] => none
                | e :: r4 =>
                  if e == ',' then parseMembers fuel r4 (acc ++ [(String.mk k, v)])
                  else if e == rbrace then some (.obj (acc ++ [(String.mk k, v)]), r4)
                  else none
            else none
      else none

/-- Parse the elements of a JSON array after the opening bracket
(first element not yet consumed). -/
def parseElems : Nat → List Char → List Json → Option (Json × List Char)
  | 0, _, _ => none
  | fuel + 1, cs, acc =>
    match parseValue fuel cs with
    | none => none
    | some (v, r) =>
      match skipWs r with
      | [] => none
      | e :: r2 =>
        if e == ',' then parseElems fuel r2 (acc ++ [v])
        else if e == ']' then some (.arr (acc ++ [v]), r2)
        else none

end

/-- json.loads on a character list: one JSON value, optionally surrounded
by whitespace; anything else raises json.JSONDecodeError (modelled none). -/
def jsonLoadsChars (cs : List Char) : Option Json :=
  match parseValue (cs.length + 1) cs with
  | none => none
  | some (j, rest) =>
    match skipWs rest with
    | [] => some j
    | _ :: _ => none

/-! ## Python str.find / str.rfind / slicing (client.py lines 109-111) -/

/-- Index of the first element satisfying p. -/
def find_index (p : Char → Bool) : List Char → Option Nat
  | [] => none
  | c :: cs => if p c then some 0 else (find_index p cs).map (· + 1)

/-- Python str.find: first index of c, or -1. -/
def pyFind (cs : List Char) (c : Char) : Int :=
  match find_index (fun x => x == c) cs with
  | some i => (i : Int)
  | none => -1

/-- Python str.rfind: last index of c, or -1. -/
def pyRFind (cs : List Char) (c : Char) : Int :=
  match find_index (fun x => x == c) cs.reverse with
  | some i => ((cs.length - 1 - i : Nat) : Int)
  | none => -1

/-- Normalize a Python slice bound: negative indices count from the end,
then clamp into [0, n]. -/
def pyBound (n : Nat) (i : Int) : Nat :=
  if i < 0 then (max (i + n) 0).toNat else min i.toNat n

/-- Python slicing s[a:b]. -/
def pySlice (cs : List Char) (a b : Int) : List Char :=
  let s := pyBound cs.length a
  let e := pyBound cs.length b
  (cs.drop s).take (e - s)

/-- client.py lines 109-111: the substring from the first brace to the
last brace (inclusive) that is handed to json.loads. -/
def extractJsonSpan (cs : List Char) : List Char :=
  pySlice cs (pyFind cs lbrace) (pyRFind cs rbrace + 1)

/-! ## ActionDispatcher: SimpleMCPAgent.process_user_request -/

/-- Outcome of calling a Python function: a returned value, or an
exception propagating to the caller. -/
inductive PyResult (α : Type) where
  | ret (a : α)
  | raised (msg : String)

/-- The collaborators process_user_request calls after parsing: exec
abstracts self.execute_sql applied to whatever value sat under the sql
key (a raised outcome feeds the outer except-Exception handler), and
collectMsg is the message returned by self.collect_data_for_insert. -/
structure Env where
  exec : Json → PyResult ExecResult
  collectMsg : String

def parse_fail_answer : String := "❌ Failed to parse LLM response"

/-- client.py lines 170-175: SimpleMCPAgent.format_select_results.
Python enumerate(data, 1). -/
def enumerate1 : Nat → List Row → List (Nat × Row)
  | _, [] => []
  | start, r :: rs => (start, r) :: enumerate1 (start + 1) rs

/-- One row line: " | ".join over the f-string column-value pairs. -/
def format_row (row : Row) : String :=
  String.intercalate " | " (row.map (fun kv => kv.1 ++ ": " ++ kv.2))

def format_select_results (data : List Row) : String :=
  if data.isEmpty then "📋 No records found"
  else
    (enumerate1 1 data).foldl
      (fun output ir => output ++ toString ir.1 ++ ". " ++ format_row ir.2 ++ "\n")
      ("📋 Found " ++ toString data.length ++ " record(s):\n"
        ++ String.mk (List.replicate 50 '-') ++ "\n")

/-- client.py line 135: the write-result message, where action is the
upper-cased action string of line 113. -/
def modify_answer (rows : Nat) (action : String) : String :=
  if rows == 0 then "⚠️ No rows affected"
  else "✅ " ++ toString rows ++ " record(s) " ++ pyLower action ++ "d."

/-- client.py lines 127-135: turn an execution result into the answer. -/
def renderExecResult (r : ExecResult) (action : String) : String :=
  match r with
  | .error m => "❌ Database Error: " ++ m
  | .select data => format_select_results data
  | .modify rows => modify_answer rows action

/-- dispatch of the sql branch: the executor answer, with a raise caught
by the outer except-Exception handler of process_user_request. -/
def exec_answer (env : Env) (sqlv : Json) (action : String) : String :=
  match env.exec sqlv with
  | .raised m => "❌ Error: " ++ m
  | .ret r => renderExecResult r action

/-- client.py lines 113-135 with the action string already normalized:
HELP, then needs_data truthiness, then sql truthiness, else the fixed
no-SQL answer. -/
def process_with_action (env : Env) (kvs : List (String × Json)) (action : String) : String :=
  if action == "HELP" then
    "💡 " ++ pyStr ((lookupLast kvs "explanation").getD .null)
  else if truthyOpt (lookupLast kvs "needs_data") then
    env.collectMsg
  else if truthyOpt (lookupLast kvs "sql") then
    exec_answer env ((lookupLast kvs "sql").getD .null) action
  else
    "❌ No SQL generated"

/-- client.py line 113 onwards: result.get('action', '').upper() and the
dispatch.  The non-object and non-string-action branches model an
AttributeError reaching the outer except-Exception handler; they are
unreachable from process_user_request, whose decoded span is always an
object (the exception text is abstracted). -/
def process_parsed (env : Env) (j : Json) : String :=
  match j with
  | .obj kvs =>
    match lookupLast kvs "action" with
    | some (.str a) => process_with_action env kvs (pyUpper a)
    | none => process_with_action env kvs (pyUpper "")
    | some _ => "❌ Error: AttributeError"
  | _ => "❌ Error: AttributeError"

/-- client.py lines 107-140: extract the first-brace-to-last-brace span
of the model reply, decode it, and dispatch; a json.JSONDecodeError
yields the fixed parse-failure answer. -/
def process_user_request (env : Env) (llm_response : String) : String :=
  match jsonLoadsChars (extractJsonSpan llm_response.data) with
  | none => parse_fail_answer
  | some j => process_parsed env j

/-! ## ModelClient: SimpleMCPAgent.ask_llm (client.py lines 51-67) -/

/-- Outcome of requests.post: either an exception (transport error or
timeout), or an HTTP response with a status code and a body that
response.json() either decodes (some) or fails on (none). -/
inductive HttpOutcome where
  | exn (msg : String)
  | resp (status : Nat) (body : Option Json)

/-- SimpleMCPAgent.ask_llm.  The bare except turns every exception into
the empty string: a raising post, a non-JSON body, a non-dict body
(.get raises AttributeError) and a non-string response field (.strip
raises AttributeError) all yield "".  The status code is never
inspected. -/
def ask_llm (o : HttpOutcome) : String :=
  match o with
  | .exn _ => ""
  | .resp _ none => ""
  | .resp _ (some (.obj kvs)) =>
    match lookupLast kvs "response" with
    | some (.str s) => pyStrip s
    | some _ => ""
    | none => pyStrip ""
  | .resp _ (some _) => ""

/-! ## InsertCollector: SimpleMCPAgent.collect_data_for_insert
(client.py lines 142-165) -/

/-- client.py line 146: schema columns minus the identity and
server-assigned columns. -/
def insertable_fields (cols : List String) : List String :=
  cols.filter (fun c => !(c == "id" || c == "hire_date"))

/-- Python dict insertion: an existing key keeps its position and gets
the new value, a new key is appended. -/
def dict_insert (d : List (String × String)) (k v : String) : List (String × String) :=
  if d.any (fun kv => kv.1 == k) then
    d.map (fun kv => if kv.1 == k then (k, v) else kv)
  else d ++ [(k, v)]

/-- client.py lines 149-153: the prompting loop.  inputs gives the text
the user types at each successive prompt; an empty stripped value aborts
with none. -/
def collect_loop (inputs : Nat → String) :
    List String → Nat → List (String × String) → Option (List (String × String))
  | [], _, data => some data
  | f :: rest, idx, data =>
    let value := pyStrip (inputs idx)
    if value == "" then none
    else collect_loop inputs rest (idx + 1) (dict_insert data f value)

/-- client.py lines 155-157: the parameterized INSERT statement built from
the collected dict. -/
def insert_sql (data : List (String × String)) : String :=
  "INSERT INTO employees (" ++ String.intercalate ", " (data.map Prod.fst)
    ++ ") VALUES (" ++ String.intercalate ", " (List.replicate data.length "%s") ++ ")"

/-- The collector outcome: the user-facing message together with the
statement and parameter tuple passed to execute_sql, or none when no
INSERT was issued. -/
structure CollectOutcome where
  message : String
  executed : Option (String × List String)

/-- SimpleMCPAgent.collect_data_for_insert.  db gives the driver
behavior for the executed statement and parameters.  The
KeyboardInterrupt path (user cancellation) is not modelled: inputs
always supplies a line. -/
def collect_data_for_insert (cols : List String) (inputs : Nat → String)
    (db : String → List String → DriverOutcome) : CollectOutcome :=
  match collect_loop inputs (insertable_fields cols) 0 [] with
  | none => ⟨"❌ All fields are required", none⟩
  | some data =>
    let sql := insert_sql data
    let params := data.map Prod.snd
    match (execute_sql sql (db sql params)).1 with
    | .error m => ⟨"❌ Insert failed: " ++ m, some (sql, params)⟩
    | _ => ⟨"✅ Employee " ++ ((data.lookup "name").getD "") ++ " added!", some (sql, params)⟩

/-! ## Diagnostics: SimpleMCPAgent.test_connections (client.py lines
177-200) and the startup gate of main (lines 206-209) -/

/-- SimpleMCPAgent.test_connections.  db_result is what
execute_sql("SELECT COUNT(*) as count FROM employees") returned; llm is
the outcome of the ask_llm round trip (ret t is a returned reply
string, raised models an exception inside the second try block).  An
empty row set or a row without the count key raises inside the first
f-string (IndexError / KeyError), caught by the first except: False.
A reply without "OK" only prints a warning; the result stays True. -/
def test_connections (db_result : ExecResult) (llm : PyResult String) : Bool :=
  match db_result with
  | .select rows =>
    match rows with
    | [] => false
    | row :: _ =>
      match row.lookup "count" with
      | none => false
      | some _ =>
        match llm with
        | .raised _ => false
        | .ret _ => true
  | .modify _ => false
  | .error _ => false

/-- main (client.py lines 206-209): the interactive loop is entered iff
test_connections returned True. -/
def main_enters_loop (self_test : Bool) : Bool := self_test

/-! ## mysql_utils.fetch_employees_by_department (mysql_utils.py 9-26) -/

/-- What the function can deliver when it does return: the fetched
(id, name, department) rows, the formatted error string, or Python None
(the fall-through when is_connected() is false). -/
inductive FetchValue where
  | rows (rs : List (Int × String × String))
  | errStr (s : String)
  | nothing

/-- Behavior of an established connection: the is_connected() flag and
the outcome of the cursor execute/fetchall (ok rows, or a raised
mysql.connector Error message). -/
structure ConnBehavior where
  is_connected : Bool
  query : Except String (List (Int × String × String))

/-- mysql_utils.fetch_employees_by_department.  When the initial connect
raises an Error, the except clause prepares to return the formatted
message, but the finally block evaluates conn.is_connected() with the
local conn never assigned: the UnboundLocalError raised there replaces
the pending return and propagates to the caller (exception text
abstracted to its type name). -/
def fetch_employees_by_department (connect : Except String ConnBehavior) :
    PyResult FetchValue :=
  match connect with
  | .error _ => .raised "UnboundLocalError"
  | .ok conn =>
    if conn.is_connected then
      match conn.query with
      | .ok rs => .ret (.rows rs)
      | .error m => .ret (.errStr ("MySQL Error: " ++ m))
    else .ret .nothing

/-! ## Concrete instances used by witnesses and counterexamples -/

/-- A concrete environment: the executor returns an empty row set for
any statement, and the collector returns a marker message. -/
def env0 : Env := ⟨fun _ => .ret (.select []), "collector invoked"⟩

/-- The decision object of the C4 counterexample: action SELECT with an
sql key that is present and non-null but empty. -/
def c4_obj : Json := .obj [("action", .str "SELECT"), ("sql", .str "")]

/-- Inputs of the C3 witness: the second prompted field is blank. -/
def c3_inputs : Nat → String := fun n => if n == 1 then " " else "v"

/-- Inputs of the C10 witness: every prompted field is filled. -/
def c10_inputs : Nat → String := fun n => "v" ++ toString n

/-- Driver behavior of the collector witnesses: the INSERT succeeds and
reports one affected row. -/
def db_ok : String → List String → DriverOutcome := fun _ _ => .ok [] 1

/-- The decision object of the C4 witness: a lower-case help action. -/
def kvs_help : List (String × Json) := [("action", .str "help"), ("explanation", .str "hi")]

/-! ## Independent renderings used to state the formatter and collector
claims (recursions with an explicit position counter) -/

/-- The enumerated body of a Select rendering: line n is the 1-indexed
position, a dot, the pipe-delimited row, and a newline. -/
def enum_lines : Nat → List Row → String
  | _, [] => ""
  | n, r :: rs => toString n ++ ". " ++ format_row r ++ "\n" ++ enum_lines (n + 1) rs

/-- The field/value pairs the collector gathers when nothing is blank:
field at position idx is paired with the stripped input at idx. -/
def field_pairs (inputs : Nat → String) : List String → Nat → List (String × String)
  | [], _ => []
  | f :: rest, idx => (f, pyStrip (inputs idx)) :: field_pairs inputs rest (idx + 1)

/-- The values alone, positionally. -/
def field_values (inputs : Nat → String) : List String → Nat → List String
  | [], _ => []
  | _ :: rest, idx => pyStrip (inputs idx) :: field_values inputs rest (idx + 1)

/-! ## Helper lemmas -/

theorem find_index_eq_none {p : Char → Bool} :
    ∀ {l : List Char}, (∀ x ∈ l, p x = false) → find_index p l = none := by
  intro l
  induction l with
  | nil => intro _; rfl
  | cons c cs ih =>
    intro h
    simp only [find_index, h c (List.mem_cons_self c cs)]
    rw [ih (fun x hx => h x (List.mem_cons_of_mem c hx))]
    rfl

theorem pySlice_stop_zero (cs : List Char) (a : Int) : pySlice cs a 0 = [] := by
  simp [pySlice, pyBound]

theorem extractJsonSpan_eq_nil {cs : List Char} (h : rbrace ∉ cs) :
    extractJsonSpan cs = [] := by
  have hf : find_index (fun x => x == rbrace) cs.reverse = none := by
    apply find_index_eq_none
    intro x hx
    simp only [beq_eq_false_iff_ne, ne_eq]
    intro hxe
    exact h (hxe ▸ List.mem_reverse.mp hx)
  unfold extractJsonSpan pyRFind
  rw [hf]
  exact pySlice_stop_zero cs _

theorem jsonLoadsChars_nil : jsonLoadsChars [] = none := rfl

theorem foldl_enumerate1 (l : List Row) :
    ∀ (n : Nat) (a : String),
      (enumerate1 n l).foldl
        (fun output ir => output ++ toString ir.1 ++ ". " ++ format_row ir.2 ++ "\n") a
      = a ++ enum_lines n l := by
  induction l with
  | nil => intro n a; simp [enumerate1, enum_lines, String.append_empty]
  | cons r rs ih =>
    intro n a
    simp only [enumerate1, enum_lines, List.foldl]
    rw [ih]
    simp [String.append_assoc]

theorem collect_loop_isNone (inputs : Nat → String) :
    ∀ (fields : List String) (idx : Nat) (data : List (String × String)),
      collect_loop inputs fields idx data = none ↔
        ∃ i, i < fields.length ∧ pyStrip (inputs (idx + i)) = "" := by
  intro fields
  induction fields with
  | nil =>
    intro idx data
    simp [collect_loop]
  | cons f rest ih =>
    intro idx data
    by_cases h : pyStrip (inputs idx) = ""
    · constructor
      · intro _
        exact ⟨0, Nat.succ_pos _, by simpa using h⟩
      · intro _
        simp [collect_loop, h]
    · have hbeq : (pyStrip (inputs idx) == "") = false := beq_eq_false_iff_ne.mpr h
      simp only [collect_loop, hbeq, Bool.false_eq_true, if_false]
      rw [ih (idx + 1) (dict_insert data f (pyStrip (inputs idx)))]
      constructor
      · rintro ⟨i, hi, hv⟩
        refine ⟨i + 1, by simpa using Nat.succ_lt_succ hi, ?_⟩
        rw [show idx + (i + 1) = idx + 1 + i by omega]
        exact hv
      · rintro ⟨i, hi, hv⟩
        match i with
        | 0 => exact absurd (by simpa using hv) h
        | j + 1 =>
          refine ⟨j, by simpa using Nat.lt_of_succ_lt_succ hi, ?_⟩
          rw [show idx + 1 + j = idx + (j + 1) by omega]
          exact hv

theorem collect_loop_some (inputs : Nat → String) :
    ∀ (fields : List String) (idx : Nat) (data0 data : List (String × String)),
      fields.Nodup →
      (∀ f ∈ fields, data0.any (fun kv => kv.1 == f) = false) →
      collect_loop inputs fields idx data0 = some data →
      data = data0 ++ field_pairs inputs fields idx := by
  intro fields
  induction fields with
  | nil =>
    intro idx data0 data _ _ h
    simp only [collect_loop, Option.some.injEq] at h
    simp [field_pairs, ← h]
  | cons f rest ih =>
    intro idx data0 data hnd hpre h
    rw [List.nodup_cons] at hnd
    by_cases hv : pyStrip (inputs idx) = ""
    · simp [collect_loop, hv] at h
    · have hbeq : (pyStrip (inputs idx) == "") = false := beq_eq_false_iff_ne.mpr hv
      simp only [collect_loop, hbeq, Bool.false_eq_true, if_false] at h
      have hins : dict_insert data0 f (pyStrip (inputs idx))
          = data0 ++ [(f, pyStrip (inputs idx))] := by
        unfold dict_insert
        rw [hpre f (List.mem_cons_self f rest)]
        rfl
      rw [hins] at h
      have hpre2 : ∀ g ∈ rest,
          ((data0 ++ [(f, pyStrip (inputs idx))]).any (fun kv => kv.1 == g)) = false := by
        intro g hg
        rw [List.any_append]
        have h1 : data0.any (fun kv => kv.1 == g) = false :=
          hpre g (List.mem_cons_of_mem f hg)
        have h2 : (f == g) = false := by
          apply beq_eq_false_iff_ne.mpr
          intro hfg
          exact hnd.1 (hfg ▸ hg)
        simp [h1, h2]
      have := ih (idx + 1) (data0 ++ [(f, pyStrip (inputs idx))]) data hnd.2 hpre2 h
      rw [this]
      simp [field_pairs, List.append_assoc]

theorem field_pairs_map_fst (inputs : Nat → String) :
    ∀ (fields : List String) (idx : Nat),
      (field_pairs inputs fields idx).map Prod.fst = fields := by
  intro fields
  induction fields with
  | nil => intro idx; rfl
  | cons f rest ih => intro idx; simp [field_pairs, ih]

theorem field_pairs_map_snd (inputs : Nat → String) :
    ∀ (fields : List String) (idx : Nat),
      (field_pairs inputs fields idx).map Prod.snd = field_values inputs fields idx := by
  intro fields
  induction fields with
  | nil => intro idx; rfl
  | cons f rest ih => intro idx; simp [field_pairs, field_values, ih]

theorem field_values_length (inputs : Nat → String) :
    ∀ (fields : List String) (idx : Nat),
      (field_values inputs fields idx).length = fields.length := by
  intro fields
  induction fields with
  | nil => intro idx; rfl
  | cons f rest ih => intro idx; simp [field_values, ih]

theorem field_values_get? (inputs : Nat → String) :
    ∀ (fields : List String) (idx i : Nat), i < fields.length →
      (field_values inputs fields idx).get? i = some (pyStrip (inputs (idx + i))) := by
  intro fields
  induction fields with
  | nil => intro idx i hi; simp at hi
  | cons f rest ih =>
    intro idx i hi
    match i with
    | 0 => simp [field_values]
    | j + 1 =>
      simp only [field_values, List.get?]
      rw [ih (idx + 1) j (by simpa using Nat.lt_of_succ_lt_succ hi)]
      rw [show idx + 1 + j = idx + (j + 1) by omega]

/-! ## Claim theorems (first group) -/

/-- C1: a statement whose trimmed upper-cased form starts with SELECT
returns the Select variant carrying all fetched rows with no commit;
any other statement commits and returns the Modify variant carrying the
driver row count. -/
theorem C1_execute_sql_classification (sql : String) (rows : List Row) (rc : Nat) :
    (sql_is_select sql = true →
      execute_sql sql (.ok rows rc) = (.select rows, false)) ∧
    (sql_is_select sql = false →
      execute_sql sql (.ok rows rc) = (.modify rc, true)) := by
  constructor <;> intro h <;> simp [execute_sql, h]

/-- C1 witness: a lower-case SELECT with leading blanks is classified as a
read, and a DELETE is classified as a write that commits. -/
theorem C1_execute_sql_classification_witness :
    execute_sql "  select * from employees" (.ok [] 0) = (.select [], false) ∧
    execute_sql "DELETE FROM employees" (.ok [] 3) = (.modify 3, true) :=
  ⟨(C1_execute_sql_classification "  select * from employees" [] 0).1 rfl,
   (C1_execute_sql_classification "DELETE FROM employees" [] 3).2 rfl⟩

/-- C5: every driver-level error raised inside execute_sql is converted to
the Error variant carrying the message; execute_sql is a total function,
so no driver exception propagates past its boundary. -/
theorem C5_execute_sql_catches_driver_errors (sql m : String) :
    execute_sql sql (.err m) = (.error m, false) := rfl

/-! ## Claim theorems (second group) -/

/-- C2 (amended): the parse stage fails with the fixed parse-failure
answer exactly when decoding the first-brace-to-last-brace span fails;
in particular every raw output with no brace pair fails; when decoding
succeeds the decision is dispatched (a missing action key does not
fail, it defaults to the empty string), and the action string used for
dispatch is the upper-cased raw action. -/
theorem C2_parse_behavior (env : Env) (raw : String) :
    (jsonLoadsChars (extractJsonSpan raw.data) = none →
      process_user_request env raw = parse_fail_answer) ∧
    (∀ j, jsonLoadsChars (extractJsonSpan raw.data) = some j →
      process_user_request env raw = process_parsed env j) ∧
    (lbrace ∉ raw.data → rbrace ∉ raw.data →
      process_user_request env raw = parse_fail_answer) ∧
    (∀ kvs a, lookupLast kvs "action" = some (Json.str a) →
      process_parsed env (.obj kvs) = process_with_action env kvs (pyUpper a)) := by
  refine ⟨?_, ?_, ?_, ?_⟩
  · intro h; simp [process_user_request, h]
  · intro j h; simp [process_user_request, h]
  · intro _ h2
    have hspan : extractJsonSpan raw.data = [] := extractJsonSpan_eq_nil h2
    simp [process_user_request, hspan, jsonLoadsChars_nil]
  · intro kvs a ha; simp [process_parsed, ha]

/-- C2 witness: a braceless raw output yields the parse-failure answer. -/
theorem C2_parse_behavior_witness :
    process_user_request env0 "hello" = parse_fail_answer :=
  (C2_parse_behavior env0 "hello").2.2.1 (by decide) (by decide)

/-- C2 counterexample: the raw output consisting of one empty JSON
object decodes to an object lacking the action field, yet the parse
does not fail: the dispatcher proceeds and answers with the no-SQL
message. -/
theorem C2_missing_action_counterexample :
    process_user_request env0 "\x7b\x7d" = "❌ No SQL generated" ∧
    process_user_request env0 "\x7b\x7d" ≠ parse_fail_answer :=
  ⟨rfl, by decide⟩

/-- C3: if any prompted insertable field strips to the empty string, the
collector returns the validation-failure message and no INSERT is
executed; conversely an INSERT is executed only when every insertable
field received a non-empty stripped value. -/
theorem C3_collector_validation (cols : List String) (inputs : Nat → String)
    (db : String → List String → DriverOutcome) :
    ((∃ i, i < (insertable_fields cols).length ∧ pyStrip (inputs i) = "") →
      collect_data_for_insert cols inputs db = ⟨"❌ All fields are required", none⟩) ∧
    ((collect_data_for_insert cols inputs db).executed ≠ none →
      ∀ i, i < (insertable_fields cols).length → pyStrip (inputs i) ≠ "") := by
  constructor
  · rintro ⟨i, hi, hv⟩
    have hnone : collect_loop inputs (insertable_fields cols) 0 [] = none :=
      (collect_loop_isNone inputs (insertable_fields cols) 0 []).mpr
        ⟨i, hi, by simpa using hv⟩
    unfold collect_data_for_insert
    rw [hnone]
  · intro hne i hi hv
    have hnone : collect_loop inputs (insertable_fields cols) 0 [] = none :=
      (collect_loop_isNone inputs (insertable_fields cols) 0 []).mpr
        ⟨i, hi, by simpa using hv⟩
    apply hne
    unfold collect_data_for_insert
    rw [hnone]

/-- C3 witness: with the second prompted value blank, the collector
aborts with the validation message and issues nothing. -/
theorem C3_collector_validation_witness :
    collect_data_for_insert ["id", "name", "salary"] c3_inputs db_ok =
      ⟨"❌ All fields are required", none⟩ :=
  (C3_collector_validation ["id", "name", "salary"] c3_inputs db_ok).1
    ⟨1, by decide, by decide⟩

/-- C4 (amended): dispatch checks HELP first, then needs_data
truthiness (any sql value ignored), then sql truthiness; a falsy sql
(absent, null, or empty string) yields the fixed no-SQL answer; each
branch is terminal. -/
theorem C4_dispatch_order (env : Env) (kvs : List (String × Json)) (a : String)
    (ha : lookupLast kvs "action" = some (Json.str a)) :
    (pyUpper a = "HELP" →
      process_parsed env (.obj kvs) =
        "💡 " ++ pyStr ((lookupLast kvs "explanation").getD .null)) ∧
    (pyUpper a ≠ "HELP" → truthyOpt (lookupLast kvs "needs_data") = true →
      process_parsed env (.obj kvs) = env.collectMsg) ∧
    (pyUpper a ≠ "HELP" → truthyOpt (lookupLast kvs "needs_data") = false →
      truthyOpt (lookupLast kvs "sql") = true →
      process_parsed env (.obj kvs) =
        exec_answer env ((lookupLast kvs "sql").getD .null) (pyUpper a)) ∧
    (pyUpper a ≠ "HELP" → truthyOpt (lookupLast kvs "needs_data") = false →
      truthyOpt (lookupLast kvs "sql") = false →
      process_parsed env (.obj kvs) = "❌ No SQL generated") := by
  refine ⟨?_, ?_, ?_, ?_⟩
  · intro h; simp [process_parsed, ha, process_with_action, h]
  · intro h hnd; simp [process_parsed, ha, process_with_action, h, hnd]
  · intro h hnd hsql; simp [process_parsed, ha, process_with_action, h, hnd, hsql]
  · intro h hnd hsql; simp [process_parsed, ha, process_with_action, h, hnd, hsql]

/-- C4 witness: a lower-case help action is answered with the
explanation. -/
theorem C4_dispatch_order_witness :
    process_parsed env0 (.obj kvs_help) = "💡 hi" :=
  ((C4_dispatch_order env0 kvs_help "help" rfl).1 rfl).trans rfl

/-- C4 counterexample: with action SELECT and an sql key that is present
and non-null but the empty string, the dispatcher answers with the fixed
no-SQL message instead of invoking the executor (whose answer here would
have been the no-records rendering). -/
theorem C4_sql_falsy_counterexample :
    process_parsed env0 c4_obj = "❌ No SQL generated" ∧
    exec_answer env0 (Json.str "") "SELECT" = "📋 No records found" ∧
    ("❌ No SQL generated" : String) ≠ "📋 No records found" :=
  ⟨rfl, rfl, by decide⟩

/-- C6 (amended): ask_llm returns the empty string whenever the request
fails by transport error or timeout (the raising post is the exn case),
and, being a total function of the request outcome, it never propagates
an exception to its caller; the HTTP status code is never inspected, so
a non-2xx status does not by itself produce the empty string — such a
response is processed exactly like a 200 response with the same body. -/
theorem C6_ask_llm_error_handling :
    (∀ m, ask_llm (.exn m) = "") ∧
    (∀ st body, ask_llm (.resp st body) = ask_llm (.resp 200 body)) := by
  refine ⟨fun m => rfl, fun st body => ?_⟩
  cases body with
  | none => rfl
  | some j => cases j <;> rfl

/-- C6 counterexample: a 500 response whose JSON body carries a response
field makes ask_llm return that text, not the empty string. -/
theorem C6_status_ignored_counterexample :
    ask_llm (.resp 500 (some (.obj [("response", .str "oops")]))) = "oops" ∧
    ("oops" : String) ≠ "" :=
  ⟨rfl, by decide⟩

/-- C7: the formatter is a function of the execution result and the
action: an empty Select yields the fixed no-records message; a
non-empty Select yields the count header, a dashed rule, and the
1-indexed pipe-delimited enumeration; a positive Modify yields the
success message with the count and the lower-cased action verb; a zero
Modify yields the no-rows-affected warning, which differs from every
database-error rendering. -/
theorem C7_formatter (data : List Row) (rows : Nat) (action : String) :
    (format_select_results [] = "📋 No records found") ∧
    (data ≠ [] →
      format_select_results data =
        "📋 Found " ++ toString data.length ++ " record(s):\n"
          ++ String.mk (List.replicate 50 '-') ++ "\n" ++ enum_lines 1 data) ∧
    (rows ≠ 0 →
      modify_answer rows action =
        "✅ " ++ toString rows ++ " record(s) " ++ pyLower action ++ "d.") ∧
    (modify_answer 0 action = "⚠️ No rows affected" ∧
      ∀ m, modify_answer 0 action ≠ renderExecResult (.error m) action) := by
  refine ⟨rfl, ?_, ?_, rfl, ?_⟩
  · intro h
    match data with
    | [] => exact absurd rfl h
    | r :: rs =>
      simp only [format_select_results, List.isEmpty_cons, Bool.false_eq_true, if_false]
      exact foldl_enumerate1 (r :: rs) 1 _
  · intro h
    have hbeq : (rows == 0) = false := beq_eq_false_iff_ne.mpr h
    simp [modify_answer, hbeq]
  · intro m h
    have h1 : ("⚠️ No rows affected" : String) = "❌ Database Error: " ++ m := h
    have h2 : (("⚠️ No rows affected" : String).data).head?
        = ((("❌ Database Error: " ++ m) : String).data).head? :=
      congrArg (fun s => s.data.head?) h1
    rw [String.data_append] at h2
    have e1 : (("⚠️ No rows affected" : String).data).head? = some (Char.ofNat 9888) := rfl
    have e2 : (("❌ Database Error: " : String).data ++ m.data).head?
        = some (Char.ofNat 10060) := rfl
    rw [e1, e2] at h2
    exact absurd h2 (by decide)

/-- C7 witness: a one-row Select and a two-row UPDATE rendered
concretely. -/
theorem C7_formatter_witness :
    format_select_results [[("id", "1")]] =
      "📋 Found 1 record(s):\n" ++ String.mk (List.replicate 50 '-') ++ "\n"
        ++ enum_lines 1 [[("id", "1")]] ∧
    modify_answer 2 "UPDATE" = "✅ 2 record(s) updated." :=
  ⟨(C7_formatter [[("id", "1")]] 2 "UPDATE").2.1 (by decide),
   ((C7_formatter [[("id", "1")]] 2 "UPDATE").2.2.1 (by decide)).trans rfl⟩

/-- C8: the self-test returns false whenever the trivial read fails
(error or write classification) or raises (no row, or no count key);
with the read healthy, any reply string from the model path, with or
without OK, leaves the result true, and only a raise in the model step
makes it false; main enters the interactive loop iff the self-test
returned true. -/
theorem C8_self_test (m : String) (rc : Nat) (llm : PyResult String)
    (v t : String) (row : List (String × String)) (rest : List Row) :
    (test_connections (.error m) llm = false) ∧
    (test_connections (.modify rc) llm = false) ∧
    (test_connections (.select []) llm = false) ∧
    (row.lookup "count" = none →
      test_connections (.select (row :: rest)) llm = false) ∧
    (test_connections (.select ((("count", v) :: row) :: rest)) (.ret t) = true) ∧
    (test_connections (.select ((("count", v) :: row) :: rest)) (.raised m) = false) ∧
    (main_enters_loop (test_connections (.error m) llm) = false) := by
  refine ⟨rfl, rfl, rfl, ?_, rfl, rfl, rfl⟩
  intro h
  simp [test_connections, h]

/-- C8 witness: a fetched row lacking the count key makes the self-test
return false even though the model path succeeded. -/
theorem C8_self_test_witness :
    test_connections (.select [[("x", "1")]]) (.ret "OK") = false :=
  (C8_self_test "e" 0 (.ret "OK") "5" "OK" [("x", "1")] []).2.2.2.1 rfl

/-- C9: when the initial connect raises a driver Error, the local conn
is never bound, so the finally block raises UnboundLocalError: the call
propagates an exception to its caller and in particular never returns
the formatted MySQL-Error string (or any other value). -/
theorem C9_fetch_unbound_conn (m : String) :
    fetch_employees_by_department (.error m) = .raised "UnboundLocalError" ∧
    ∀ v, fetch_employees_by_department (.error m) ≠ .ret v := by
  refine ⟨rfl, fun v h => ?_⟩
  exact nomatch h

/-- C10: whenever the collector reaches execution, the INSERT lists
exactly the insertable schema columns in schema order, the number of
placeholder markers equals the number of collected fields, and the i-th
parameter is the stripped value collected for the i-th listed column.
The no-duplicates hypothesis reflects the schema source: column names
come from a DESCRIBE query and are distinct. -/
theorem C10_insert_statement_shape (cols : List String) (inputs : Nat → String)
    (db : String → List String → DriverOutcome) (sql : String) (params : List String)
    (hnd : (insertable_fields cols).Nodup)
    (hex : (collect_data_for_insert cols inputs db).executed = some (sql, params)) :
    sql = "INSERT INTO employees ("
        ++ String.intercalate ", " (insertable_fields cols)
        ++ ") VALUES ("
        ++ String.intercalate ", " (List.replicate (insertable_fields cols).length "%s")
        ++ ")" ∧
    params.length = (insertable_fields cols).length ∧
    (∀ i, i < (insertable_fields cols).length →
      params.get? i = some (pyStrip (inputs i))) := by
  cases hc : collect_loop inputs (insertable_fields cols) 0 [] with
  | none =>
    rw [show collect_data_for_insert cols inputs db
        = ⟨"❌ All fields are required", none⟩ by
      unfold collect_data_for_insert; rw [hc]] at hex
    simp at hex
  | some data =>
    have hdata : data = field_pairs inputs (insertable_fields cols) 0 := by
      have := collect_loop_some inputs (insertable_fields cols) 0 [] data hnd
        (fun f _ => rfl) hc
      simpa using this
    have hval : (collect_data_for_insert cols inputs db).executed
        = some (insert_sql data, data.map Prod.snd) := by
      simp only [collect_data_for_insert, hc]
      cases (execute_sql (insert_sql data) (db (insert_sql data) (data.map Prod.snd))).1
        <;> rfl
    have h2 := Option.some.inj (hval.symm.trans hex)
    have hexec : sql = insert_sql data ∧ params = data.map Prod.snd :=
      ⟨(congrArg Prod.fst h2).symm, (congrArg Prod.snd h2).symm⟩
    have hfst : data.map Prod.fst = insertable_fields cols := by
      rw [hdata]; exact field_pairs_map_fst inputs (insertable_fields cols) 0
    have hsnd : data.map Prod.snd = field_values inputs (insertable_fields cols) 0 := by
      rw [hdata]; exact field_pairs_map_snd inputs (insertable_fields cols) 0
    have hlen : data.length = (insertable_fields cols).length := by
      rw [← hfst]; exact (List.length_map data Prod.fst).symm
    refine ⟨?_, ?_, ?_⟩
    · rw [hexec.1]; unfold insert_sql; rw [hfst, hlen]
    · rw [hexec.2, hsnd]
      exact field_values_length inputs (insertable_fields cols) 0
    · intro i hi
      rw [hexec.2, hsnd]
      have := field_values_get? inputs (insertable_fields cols) 0 i hi
      simpa using this

/-- C10 witness: a three-column schema with identity column excluded
produces exactly the two-column INSERT with matching placeholders. -/
theorem C10_insert_statement_shape_witness :
    (collect_data_for_insert ["id", "name", "salary"] c10_inputs db_ok).executed =
      some ("INSERT INTO employees (name, salary) VALUES (%s, %s)", ["v0", "v1"]) ∧
    ("INSERT INTO employees (name, salary) VALUES (%s, %s)" : String) =
      "INSERT INTO employees ("
        ++ String.intercalate ", " (insertable_fields ["id", "name", "salary"])
        ++ ") VALUES ("
        ++ String.intercalate ", "
            (List.replicate (insertable_fields ["id", "name", "salary"]).length "%s")
        ++ ")" :=
  ⟨rfl, (C10_insert_statement_shape ["id", "name", "salary"] c10_inputs db_ok
      "INSERT INTO employees (name, salary) VALUES (%s, %s)" ["v0", "v1"]
      (by decide) rfl).1⟩
